import Mathlib

/-
Verification development for the centrifuge repository (release folder
organizer).  The filesystem-facing core (`assemble_discs`, `enforce_max_path`,
`move_invalid_folder`, `rename_files`, `move_rename_folder`, `move_duplicate`,
`fix_releases` and the `UniqueRelease` duplicate tracking) is shallowly
embedded below.  Python strings are modelled as `List Char`, absolute POSIX
paths as such strings, and the filesystem as the list of existing node paths
(a node's ancestors exist implicitly).  External collaborators (the metafix
`Release` object, the tag codec, the validator) are modelled as records of
the values the core reads from them.
-/

set_option maxRecDepth 10000

namespace Centrifuge

/-- Python strings (and paths) as lists of characters. -/
abbrev PStr := List Char

/-- Coerce a Lean string literal to the `List Char` model. -/
def str (s : String) : PStr := s.data

/-- Index of the last occurrence of `c` in `s` (Python `str.rfind`),
`none` when absent. -/
def rfindIdx (c : Char) (s : PStr) : Option Nat :=
  (s.reverse.findIdx? (fun d => d == c)).map (fun i => s.length - 1 - i)

/-- Embedding of `posixpath.split`: split a path at the final slash; the head keeps no
trailing slashes unless it consists only of slashes (CPython `posixpath.split`). -/
def splitP (p : PStr) : PStr × PStr :=
  let i := match rfindIdx '/' p with
    | some j => j + 1
    | none => 0
  let head := p.take i
  let tail := p.drop i
  let head := if head ≠ [] ∧ head.any (fun d => d ≠ '/')
    then (head.reverse.dropWhile (fun d => d == '/')).reverse
    else head
  (head, tail)

/-- Embedding of `posixpath.join` for two components: an absolute second component wins;
otherwise a separator is inserted unless the first part is empty or already
ends with a slash. -/
def joinP (a b : PStr) : PStr :=
  if b.head? = some '/' then b
  else if a = [] ∨ a.getLast? = some '/' then a ++ b
  else a ++ '/' :: b

/-- Embedding of `posixpath.splitext`: split off the extension at the last dot of the
basename, unless every character before it in the basename is a dot
(CPython `genericpath._splitext`). -/
def splitextP (p : PStr) : PStr × PStr :=
  match rfindIdx '.' p with
  | none => (p, [])
  | some dotIdx =>
    let sepIdx : Int := match rfindIdx '/' p with
      | some j => (j : Int)
      | none => -1
    if sepIdx < (dotIdx : Int) then
      let filenameIndex := (sepIdx + 1).toNat
      if ((p.drop filenameIndex).take (dotIdx - filenameIndex)).all (fun d => d == '.')
      then (p, [])
      else (p.take dotIdx, p.drop dotIdx)
    else (p, [])

/-- Python slicing `s[:i]` with a possibly negative bound. -/
def pyTake (s : PStr) (i : Int) : PStr :=
  if 0 ≤ i then s.take i.toNat else s.take (s.length - i.natAbs)

/-- First component of Python `s.split("-")` (used for the release year). -/
def firstDashField (s : PStr) : PStr := s.takeWhile (fun d => d ≠ '-')

/-! ## Filesystem model

The filesystem is the list of existing node paths.  A directory exists when
it is a node or a proper ancestor of one; a directory is empty when no node
lies strictly below it.  Trailing slashes (which `posixpath.join` produces
for empty components) are stripped before comparison, matching POSIX
resolution. -/

/-- Filesystem: the list of existing node paths. -/
abbrev FS := List PStr

/-- Strip trailing slashes (no-op on an all-slash path such as the root). -/
def normP (p : PStr) : PStr :=
  if p.any (fun d => d ≠ '/')
  then (p.reverse.dropWhile (fun d => d == '/')).reverse
  else p

/-- Embedding of `os.path.exists`: the path is a node or an ancestor of a node. -/
def pexists (fs : FS) (p : PStr) : Bool :=
  let q := normP p
  fs.any (fun r => r == q || (q ++ ['/']).isPrefixOf r)

/-- Embedding of `os.rename` on a directory tree: every node at or below `src` is
re-rooted at `dst`. -/
def renameFS (fs : FS) (src dst : PStr) : FS :=
  let s := normP src
  let d := normP dst
  fs.map (fun q =>
    if q == s then d
    else if (s ++ ['/']).isPrefixOf q then d ++ q.drop s.length
    else q)

/-- Embedding of `os.makedirs(..., exist_ok=True)`: record the directory node. -/
def makedirsFS (fs : FS) (p : PStr) : FS :=
  if pexists fs p then fs else fs ++ [normP p]

/-- Embedding of `os.rmdir` (only ever called on empty directories). -/
def rmdirFS (fs : FS) (p : PStr) : FS :=
  let q := normP p
  fs.filter (fun r => r ≠ q)

/-- Embedding of `os.listdir(p) != []`: some node lies strictly below `p`. -/
def hasChild (fs : FS) (p : PStr) : Bool :=
  let q := normP p
  fs.any (fun r => (q ++ ['/']).isPrefixOf r)

/-- Names of the immediate children of `p` that are themselves nodes
(`os.scandir` order is the node-list order). -/
def childrenOf (fs : FS) (p : PStr) : List PStr :=
  let q := normP p
  fs.filterMap (fun r =>
    if (q ++ ['/']).isPrefixOf r then
      let rest := r.drop (q.length + 1)
      if rest ≠ [] ∧ rest.all (fun d => d ≠ '/') then some rest else none
    else none)

/-- The ancestor-cleanup loop `while not os.listdir(d): os.rmdir(d); d = split(d)[0]`
from `move_rename_folder` and `rename_files`, with fuel bounding the walk
(the walk strictly shortens the path until a non-empty ancestor stops it). -/
def cleanupF : Nat → FS → PStr → FS
  | 0, fs, _ => fs
  | n + 1, fs, p => if hasChild fs p then fs else cleanupF n (rmdirFS fs p) (splitP p).1

/-- Ancestor cleanup entry point. -/
def cleanup (fs : FS) (p : PStr) : FS := cleanupF (p.length + 1) fs p

/-! ## The disc regex of `assemble_discs`

`re.findall(r'(?i)( )?([(\[{ ])?(disc|disk|cd|part)( ?)(\d{1,2})([)\]}])?', folder)`
is embedded as a backtracking matcher: every optional group greedily tries to
match first, alternatives are tried in pattern order, and `findMatch` returns
the groups of the leftmost match. -/

/-- Opening-bracket character class `[(\[{ ]` (the brace written by code). -/
def openBracketChars : List Char := ['(', '[', Char.ofNat 123, ' ']

/-- Closing-bracket character class `[)\]}]`. -/
def closeBracketChars : List Char := [')', ']', Char.ofNat 125]

/-- The alternation `disc|disk|cd|part`, in pattern order. -/
def discVariants : List PStr := [str "disc", str "disk", str "cd", str "part"]

/-- The six capture groups of one regex match. -/
structure DiscMatch where
  g1 : PStr
  g2 : PStr
  g3 : PStr
  g4 : PStr
  g5 : PStr
  g6 : PStr
deriving DecidableEq, Repr

/-- Python `''.join(match)`: the full matched substring. -/
def discJoined (m : DiscMatch) : PStr := m.g1 ++ m.g2 ++ m.g3 ++ m.g4 ++ m.g5 ++ m.g6

/-- An optional single-character group: greedily offer the character, then
the empty alternative. -/
def optChar (p : Char → Bool) (s : PStr) : List (PStr × PStr) :=
  match s with
  | c :: rest => if p c then [([c], rest), ([], s)] else [([], s)]
  | [] => [([], [])]

/-- Case-insensitive literal prefix match, returning the matched characters
with their original case. -/
def ciPrefix (v : PStr) (s : PStr) : Option (PStr × PStr) :=
  let pre := s.take v.length
  if pre.length = v.length ∧ pre.map Char.toLower = v then some (pre, s.drop v.length)
  else none

/-- Pattern `\d{1,2}` greedily: two digits first, then one. -/
def digits12 (s : PStr) : List (PStr × PStr) :=
  match s with
  | a :: b :: r =>
    if a.isDigit then
      if b.isDigit then [([a, b], r), ([a], b :: r)] else [([a], b :: r)]
    else []
  | [a] => if a.isDigit then [([a], [])] else []
  | [] => []

/-- Try the whole pattern anchored at the start of `s`. -/
def matchAt (s : PStr) : Option DiscMatch :=
  (optChar (fun c => c == ' ') s).findSome? fun p1 =>
    (optChar (fun c => openBracketChars.contains c) p1.2).findSome? fun p2 =>
      discVariants.findSome? fun v =>
        (ciPrefix v p2.2).bind fun p3 =>
          (optChar (fun c => c == ' ') p3.2).findSome? fun p4 =>
            (digits12 p4.2).findSome? fun p5 =>
              (optChar (fun c => closeBracketChars.contains c) p5.2).findSome? fun p6 =>
                some ⟨p1.1, p2.1, p3.1, p4.1, p5.1, p6.1⟩

/-- Leftmost match of the disc pattern in `s` (what `re.findall(...)[0]` yields). -/
def findMatch : PStr → Option DiscMatch
  | [] => none
  | c :: rest => (matchAt (c :: rest)).orElse fun _ => findMatch rest

/-- Start position of the leftmost match, for reasoning about the character
that precedes the match. -/
def findMatchStart : PStr → Option Nat
  | [] => none
  | c :: rest =>
    if (matchAt (c :: rest)).isSome then some 0
    else (findMatchStart rest).map (fun i => i + 1)

/-- Python `str.find`: index of the first occurrence of `needle`, `none` when
absent (the source compares the result with `-1` implicitly via `> 0`). -/
def strFindIdx (hay needle : PStr) : Option Nat :=
  (List.range (hay.length + 1)).find? (fun i => needle.isPrefixOf (hay.drop i))

/-- Python `str.replace(old, new="")`: remove every non-overlapping occurrence
of `old`, scanning left to right (fuelled recursion on the haystack length). -/
def replaceAllF : Nat → PStr → PStr → PStr
  | 0, s, _ => s
  | _ + 1, [], _ => []
  | f + 1, c :: rest, old =>
    if old ≠ [] ∧ old.isPrefixOf (c :: rest)
    then replaceAllF f ((c :: rest).drop old.length) old
    else c :: replaceAllF f rest old

/-- Remove every occurrence of `old` from `s`. -/
def replaceAll (s old : PStr) : PStr := replaceAllF s.length s old

/-- Pattern class `\w` of the tag pattern (ASCII word characters). -/
def isWordChar (c : Char) : Bool := c.isAlphanum || c == '_'

/-- Embedding of `re.sub(r' \[[\w]+\]', '', s)`: strip every trailing-tag occurrence such
as " [FLAC]" (fuelled scan; the pattern is a space, an opening square
bracket, one or more word characters, a closing square bracket). -/
def subTagsF : Nat → PStr → PStr
  | 0, s => s
  | _ + 1, [] => []
  | f + 1, c :: rest =>
    if c == ' ' then
      match rest with
      | '[' :: r1 =>
        let w := r1.takeWhile isWordChar
        let r2 := r1.dropWhile isWordChar
        if w ≠ [] ∧ r2.head? = some ']' then subTagsF f r2.tail
        else c :: subTagsF f rest
      | _ => c :: subTagsF f rest
    else c :: subTagsF f rest

/-- Strip all " [word]" tags from `s`. -/
def subTags (s : PStr) : PStr := subTagsF s.length s

/-! ## `assemble_discs` (src/centrifuge.py lines 229-270) -/

/-- One loop iteration of `assemble_discs`: for a release directory path,
either `none` (no disc match, or match rejected by the preceding-character
check) or the `(container, folder)` pair recorded into the consolidation
map.  Mirrors source lines 237-247: the skip condition tests the character
before the FIRST occurrence of the matched variant text (`folder.find`),
not the character before the match itself. -/
def disc_entry (curr : PStr) : Option (PStr × PStr) :=
  let parent := (splitP curr).1
  let folder := (splitP curr).2
  match findMatch folder with
  | none => none
  | some m =>
    let skip := match strFindIdx folder m.g3 with
      | some i => decide (0 < i) && (folder[i - 1]?.elim false Char.isAlphanum)
      | none => false
    if skip then none
    else
      let container := joinP parent (replaceAll folder (discJoined m))
      some (subTags container, folder)

/-- Insert one `(container, folder)` pair into the consolidation map
`dict[container.lower() -> [container, set of folders]]` (dict and set both
modelled as insertion-ordered lists; the set adds a folder only when absent). -/
def addGroup (acc : List (PStr × PStr × List PStr)) (container folder : PStr) :
    List (PStr × PStr × List PStr) :=
  let key := container.map Char.toLower
  if acc.any (fun e => e.1 == key) then
    acc.map (fun e =>
      if e.1 == key then (e.1, e.2.1, if folder ∈ e.2.2 then e.2.2 else e.2.2 ++ [folder])
      else e)
  else acc ++ [(key, container, [folder])]

/-- The consolidation map of `assemble_discs` after the filter
`len(consolidate[key][1]) > 1` and the unpacking step: the retained
`(container, disc folder names)` groups. -/
def disc_groups (release_dirs : List PStr) : List (PStr × List PStr) :=
  let consolidate := release_dirs.foldl
    (fun acc curr =>
      match disc_entry curr with
      | some cf => addGroup acc cf.1 cf.2
      | none => acc)
    []
  ((consolidate.filter (fun e => 1 < e.2.2.length)).map (fun e => (e.2.1, e.2.2)))

/-- Embedding of `assemble_discs(release_dirs, move_folders)` as a filesystem transformer.
The source returns `None` and never mutates the caller's directory list; with
`move_folders` false it performs no filesystem call at all (source lines
262-270 are guarded by `if move_folders:`). -/
def assemble_discs (release_dirs : List PStr) (move_folders : Bool) (fs : FS) : FS :=
  if move_folders then
    (disc_groups release_dirs).foldl
      (fun acc g =>
        let acc := makedirsFS acc g.1
        g.2.foldl
          (fun acc2 disc => renameFS acc2 (joinP (splitP g.1).1 disc) (joinP g.1 disc))
          acc)
      fs
  else fs

/-- The set of directories validated by `validate_releases`
(src/centrifuge.py lines 136-153): the loop runs over every element of
`release_dirs`; the `assemble_discs(release_dirs, False)` call at line 139
is commented out in the source, so no directory is excluded. -/
def validate_releases (release_dirs : List PStr) : List PStr := release_dirs

/-! ## The data the core reads from its collaborators

The metafix `Release` object is external to this repository; the core only
calls the methods below, so a release is embedded as the record of their
results.  `get_folder_name` takes the `codec_short` and `group_by_category`
flags exactly as in the source. -/

/-- The values `move_rename_folder` and `fix_releases` read off a metafix
release. -/
structure Release where
  can_validate_folder_name : Bool
  get_folder_name : Bool → Bool → PStr
  num_violations : Nat
  is_va : Bool
  category_value : PStr
  artist_folder : PStr
  validate_release_artists : List PStr
  validate_release_date : PStr
  validate_release_title : PStr
  validate_codec : PStr
  get_codec_rank : Nat

/-- The argparse namespace fields the embedded functions read. -/
structure Args where
  dry_run : Bool
  full_codec_names : Bool
  group_by_artist : Bool
  group_by_category : Bool
  move_invalid : Option PStr

/-- Embedding of `UniqueRelease` (src/centrifuge.py lines 28-51): equality and hashing
use only the `(artists, year, title, codec)` four-tuple; `__lt__`/`__gt__`
compare ranks only; `rank` and `path` are payload. -/
structure UniqueRelease where
  artists : List PStr
  year : PStr
  title : PStr
  codec : PStr
  rank : Nat
  path : PStr
deriving DecidableEq

/-- The fingerprint four-tuple that `UniqueRelease.__eq__`/`__hash__` use. -/
def fp (u : UniqueRelease) : List PStr × PStr × PStr × PStr :=
  (u.artists, u.year, u.title, u.codec)

/-- The `unique_releases` set of a fix run, modelled as an insertion-ordered
list; `fix_releases` only ever adds through `move_rename_folder`. -/
abbrev UniqSet := List UniqueRelease

/-- State threaded through the fix pipeline: the filesystem and the
duplicate-resolver tracking set. -/
structure St where
  fs : FS
  uniq : UniqSet
deriving DecidableEq

/-- Embedding of `move_duplicate` (src/centrifuge.py lines 453-462): find the first free
`duplicate_folder/name`, `name_1`, `name_2`, ... and rename the source there.
Fuelled by the filesystem size (at most `|fs|` candidate names can exist, so
the fuel `|fs| + 1` is never exhausted); returns the destination chosen and
the updated filesystem. -/
def move_duplicateF : Nat → FS → PStr → PStr → PStr → Nat → PStr × FS
  | 0, fs, _, source_folder, _, _ => (source_folder, fs)
  | f + 1, fs, duplicate_folder, source_folder, release_folder_name, attempt =>
    let curr_dest_folder := joinP duplicate_folder release_folder_name
    let curr_dest_folder := if attempt = 0 then curr_dest_folder
      else curr_dest_folder ++ '_' :: str (toString attempt)
    if pexists fs curr_dest_folder = false
    then (curr_dest_folder, renameFS fs source_folder curr_dest_folder)
    else move_duplicateF f fs duplicate_folder source_folder release_folder_name (attempt + 1)

/-- Entry point of `move_duplicate`. -/
def move_duplicate (fs : FS) (duplicate_folder source_folder release_folder_name : PStr) :
    PStr × FS :=
  move_duplicateF (fs.length + 1) fs duplicate_folder source_folder release_folder_name 0

/-! ## `move_rename_folder` (src/centrifuge.py lines 364-450)

The body is split into its three sequential steps; `os.path.normcase` is the
identity on POSIX, so the normcase comparisons are plain equalities. -/

/-- Step 1 (lines 374-391): rename the release folder in place to its
canonical name; skipped when a different existing directory occupies the
canonical name (the `PermissionError` retry loop always eventually renames
and is modelled as the rename itself). -/
def rename_step (fs : FS) (curr_dir fixed_dir : PStr) : FS × PStr :=
  if curr_dir ≠ fixed_dir then
    if pexists fs fixed_dir = false ∨ curr_dir = fixed_dir
    then (renameFS fs curr_dir fixed_dir, fixed_dir)
    else (fs, curr_dir)
  else (fs, curr_dir)

/-- Step 2 (lines 393-425): move the renamed folder under the destination
root, creating the parent, cleaning now-empty ancestors after a successful
move, and redirecting to `move_duplicate` when the destination is occupied
and a duplicate root is configured.  Returns the filesystem, the release's
current path and the `moved_duplicate` flag. -/
def dest_step (rel : Release) (args : Args) (fs : FS) (moved_dir fixed_dir : PStr)
    (dest_folder duplicate_folder : Option PStr) : FS × PStr × Bool :=
  match dest_folder with
  | none => (fs, moved_dir, false)
  | some df =>
    if rel.num_violations = 0 then
      let codec_short := !args.full_codec_names
      let artist_folder := if args.group_by_artist && !rel.is_va then rel.artist_folder else []
      let category_folder := if args.group_by_category then rel.category_value else []
      let curr_dest_parent_folder := joinP (joinP df category_folder) artist_folder
      let curr_dest_folder :=
        joinP curr_dest_parent_folder (rel.get_folder_name codec_short args.group_by_category)
      if moved_dir ≠ curr_dest_folder then
        let fs := if pexists fs curr_dest_parent_folder = false
          then makedirsFS fs curr_dest_parent_folder else fs
        if pexists fs curr_dest_folder = false then
          let fs := renameFS fs moved_dir curr_dest_folder
          let fs := cleanup fs (splitP fixed_dir).1
          (fs, curr_dest_folder, false)
        else
          match duplicate_folder with
          | some dupf =>
            let r := move_duplicate fs dupf moved_dir
              (rel.get_folder_name codec_short args.group_by_category)
            (r.2, r.1, true)
          | none => (fs, moved_dir, false)
      else (fs, moved_dir, false)
    else (fs, moved_dir, false)

/-- The `UniqueRelease` built at lines 428-430 for the current release. -/
def mk_unique (rel : Release) (moved_dir : PStr) : UniqueRelease :=
  { artists := rel.validate_release_artists
    year := firstDashField rel.validate_release_date
    title := rel.validate_release_title
    codec := rel.validate_codec
    rank := rel.get_codec_rank
    path := moved_dir }

/-- Step 3 (lines 427-450): deduplicate against the tracking set.  Python's
`set.remove` removes the single stored element equal to the probe and is
embedded as `List.eraseP` on the fingerprint; the list comprehension
`[x for x in unique_releases if x == unique_release][0]` is `List.find?`.
Note that in the demote-existing branch the source assigns `moved_dir` to the
DEMOTED occupant's new duplicate path and returns that. -/
def dedup_step (rel : Release) (args : Args) (uniq : UniqSet) (fs : FS) (moved_dir : PStr)
    (moved_duplicate : Bool) (duplicate_folder : Option PStr) : St × PStr :=
  let unique_release := mk_unique rel moved_dir
  match duplicate_folder with
  | none => (⟨fs, uniq⟩, moved_dir)
  | some dupf =>
    if rel.num_violations = 0 ∧ moved_duplicate = false then
      match uniq.find? (fun u => decide (fp u = fp unique_release)) with
      | some existing =>
        if existing.rank < unique_release.rank then
          let release_folder_name := (splitP existing.path).2
          let r := move_duplicate fs dupf existing.path release_folder_name
          (⟨r.2, (uniq.eraseP (fun u => decide (fp u = fp unique_release))) ++ [unique_release]⟩,
            r.1)
        else
          let release_folder_name :=
            rel.get_folder_name (!args.full_codec_names) args.group_by_category
          let r := move_duplicate fs dupf moved_dir release_folder_name
          (⟨r.2, uniq⟩, r.1)
      | none => (⟨fs, uniq ++ [unique_release]⟩, moved_dir)
    else (⟨fs, uniq⟩, moved_dir)

/-- Embedding of `move_rename_folder` (src/centrifuge.py lines 364-450): rename to the
canonical folder name, move under the destination root, deduplicate, and
return the new state together with the `moved_dir` the source returns. -/
def move_rename_folder (rel : Release) (st : St) (curr_dir : PStr)
    (dest_folder duplicate_folder : Option PStr) (args : Args) : St × PStr :=
  if args.dry_run || !rel.can_validate_folder_name then (st, curr_dir)
  else
    let codec_short := !args.full_codec_names
    let fixed_dir :=
      joinP (splitP curr_dir).1 (rel.get_folder_name codec_short args.group_by_category)
    let s1 := rename_step st.fs curr_dir fixed_dir
    let s2 := dest_step rel args s1.1 s1.2 fixed_dir dest_folder duplicate_folder
    dedup_step rel args st.uniq s2.1 s2.2.1 s2.2.2 duplicate_folder

/-- Embedding of `move_invalid_folder` (src/centrifuge.py lines 349-361): relocate an
invalid release under the invalid root when that root is configured, the
destination is free and the configured `--move-invalid` violation kind is
among the release's violation kinds (violations are embedded as their
`violation_type.value` strings). -/
def move_invalid_folder (fs : FS) (curr_dir : PStr) (invalid_folder : Option PStr)
    (violations : List PStr) (move_invalid : Option PStr) : FS × PStr :=
  match invalid_folder with
  | none => (fs, curr_dir)
  | some inv =>
    let dest := joinP inv (splitP curr_dir).2
    let kind_matches := match move_invalid with
      | some m => violations.contains m
      | none => false
    if pexists fs dest = false ∧ kind_matches = true then
      (renameFS fs curr_dir dest, dest)
    else (fs, curr_dir)

/-- Embedding of the `enforce_max_path` loop body (src/centrifuge.py lines 274-282) for one
`os.scandir` entry.  `os.path.join(path, curr)` on a `DirEntry` of an
absolute `path` resolves to `entry.path`, i.e. `path ++ "/" ++ name`.
Lengths are Python `len` on the path string.  A full path over 255
characters whose parent is at least 245 characters raises `ValueError`;
otherwise the name is truncated (`prefix[:255-len(ext)-2] + ".." + ext`,
Python slicing semantics) and renamed unless the target already exists. -/
def enforce_entry (fs : FS) (path name : PStr) : Except PStr FS :=
  let curr_full_path := path ++ '/' :: name
  if 255 < curr_full_path.length then
    if 245 ≤ (splitP curr_full_path).1.length then
      Except.error (splitP curr_full_path).1
    else
      let pe := splitextP curr_full_path
      let new_full_path := pyTake pe.1 (255 - (pe.2.length : Int) - 2) ++ str ".." ++ pe.2
      if pexists fs new_full_path = false
      then Except.ok (renameFS fs curr_full_path new_full_path)
      else Except.ok fs
  else Except.ok fs

/-- Embedding of `enforce_max_path` (src/centrifuge.py lines 273-282): fold the entry
check over the directory listing; a raised `ValueError` aborts the loop and
propagates. -/
def enforce_max_path (fs : FS) (path : PStr) : Except PStr FS :=
  (childrenOf fs path).foldlM (fun acc name => enforce_entry acc path name) fs

/-! ## `rename_files` (src/functions.py) -/

/-- First loop of `rename_files`: collect `(filename, correct_filename)`
pairs.  A track is a pair of its current relative filename and the falsy-or-
string result of `Track.get_filename`; a falsy result makes the whole
function `return` before any rename is applied, which `none` here signals.
Collision checks run against the filesystem as it is before any rename. -/
def buildRenames (fs : FS) (parent_path : PStr) :
    List (PStr × Option PStr) → Option (List (PStr × PStr))
  | [] => some []
  | (filename, correct?) :: rest =>
    match correct? with
    | none => none
    | some correct_filename =>
      let dest_path := joinP parent_path correct_filename
      let keep := filename ≠ correct_filename ∧
        (pexists fs dest_path = false ∨ filename = correct_filename)
      match buildRenames fs parent_path rest with
      | none => none
      | some rs => some ((if keep then [(filename, correct_filename)] else []) ++ rs)

/-- Second loop of `rename_files`: apply the renames.  In a dry run nothing
touches the filesystem; the `os.name == "nt"` truncation is Windows-only and
the model is POSIX; a rename whose destination exists (and is not a pure
case change, which on POSIX means equality) is skipped with an error log;
each applied rename is followed by the empty-ancestor cleanup walk. -/
def applyRenames (parent_path : PStr) (dry_run : Bool) :
    List (PStr × PStr) → FS → FS
  | [], fs => fs
  | (src, dst) :: rest, fs =>
    if dry_run then applyRenames parent_path dry_run rest fs
    else
      let dest_path := joinP parent_path dst
      if pexists fs dest_path = true ∧ src ≠ dst
      then applyRenames parent_path dry_run rest fs
      else
        let fs := renameFS fs (joinP parent_path src) dest_path
        let fs := cleanup fs (joinP parent_path (splitP src).1)
        applyRenames parent_path dry_run rest fs

/-- Embedding of `rename_files(release, parent_path, dry_run)` as a filesystem
transformer over the fixed release's tracks. -/
def rename_files (tracks : List (PStr × Option PStr)) (parent_path : PStr) (fs : FS)
    (dry_run : Bool) : FS :=
  match buildRenames fs parent_path tracks with
  | none => fs
  | some renames => applyRenames parent_path dry_run renames fs

/-! ## `fix_releases` (src/centrifuge.py lines 285-346)

Per-release collaborator results (lock check, the fixed release, its tracks,
the validator's violation kinds, unreadable files) are supplied as a record
per directory.  Tag writing (`cleartag.write_tags`, dry-run guarded in the
source) changes file contents only, never paths, so it does not appear in
the path-level filesystem model. -/

/-- What one orchestration iteration reads from the collaborators for a
given release directory. -/
structure RelInfo where
  lockable : Bool
  rel : Release
  tracks : List (PStr × Option PStr)
  validator_violations : List PStr
  unreadable : List PStr

/-- Violation kind strings used by the folder-name check and the unreadable
marker (`ViolationType.FOLDER_NAME.value` / `ViolationType.UNREADABLE.value`). -/
def folderNameViolation : PStr := str "folder_name"

/-- Unreadable-file violation kind. -/
def unreadableViolation : PStr := str "unreadable"

/-- Violations computed after fixing (lines 326-328): the validator's list,
then `validate_folder_name` with `skip_comparison=True` (which only adds the
cannot-validate marker), then one violation per unreadable file. -/
def violations_after (i : RelInfo) : List PStr :=
  i.validator_violations
    ++ (if i.rel.can_validate_folder_name then [] else [folderNameViolation])
    ++ i.unreadable.map (fun _ => unreadableViolation)

/-- One iteration of the `fix_releases` loop for `curr_dir` (lines 291-346):
skip unlockable releases, apply tag fixes and file renames, then either the
move/rename engine (no violations) or the invalid-folder move, and finally
`enforce_max_path` on the release's reported directory - whose `ValueError`
is not caught anywhere and therefore aborts the whole fold.  The second
state component records the `moved_dir` values printed per release. -/
def fix_one (info : PStr → RelInfo) (args : Args)
    (dest_folder invalid_folder duplicate_folder : Option PStr)
    (st : St × List PStr) (curr_dir : PStr) : Except PStr (St × List PStr) :=
  let i := info curr_dir
  if i.lockable = false then Except.ok st
  else
    let fs1 := rename_files i.tracks curr_dir st.1.fs args.dry_run
    let violations := violations_after i
    if violations.length = 0 then
      let r := move_rename_folder i.rel ⟨fs1, st.1.uniq⟩ curr_dir dest_folder
        duplicate_folder args
      match enforce_max_path r.1.fs r.2 with
      | Except.error e => Except.error e
      | Except.ok fs2 => Except.ok (⟨fs2, r.1.uniq⟩, st.2 ++ [r.2])
    else
      let r := move_invalid_folder fs1 curr_dir invalid_folder violations args.move_invalid
      match enforce_max_path r.1 r.2 with
      | Except.error e => Except.error e
      | Except.ok fs2 => Except.ok (⟨fs2, st.1.uniq⟩, st.2 ++ [r.2])

/-- Embedding of `fix_releases`: fold the per-release iteration over the scanned release
directories, starting from an empty `unique_releases` set in the source; the
initial state is a parameter here so runs can be analyzed mid-stream. -/
def fix_releases (info : PStr → RelInfo) (args : Args)
    (dest_folder invalid_folder duplicate_folder : Option PStr)
    (release_dirs : List PStr) (st : St) : Except PStr (St × List PStr) :=
  release_dirs.foldlM (fix_one info args dest_folder invalid_folder duplicate_folder) (st, [])

/-! ## Invariants of the duplicate-resolver tracking set -/

/-- At most one tracked occupant per fingerprint: all pairs of elements have
distinct `(artists, year, title, codec)` four-tuples. -/
def NodupFp (uniq : UniqSet) : Prop :=
  List.Pairwise (fun a b => fp a ≠ fp b) uniq

/-- Removing the first fingerprint-equal element from a set with pairwise
distinct fingerprints leaves no element with that fingerprint. -/
theorem fp_not_mem_eraseP (ur : UniqueRelease) :
    ∀ l : UniqSet, NodupFp l →
      ∀ u ∈ l.eraseP (fun v => decide (fp v = fp ur)), fp u ≠ fp ur := by
  intro l
  induction l with
  | nil => intro _ u hu; simp [List.eraseP] at hu
  | cons x xs ih =>
    intro h u hu
    rw [List.eraseP_cons] at hu
    cases hx : decide (fp x = fp ur) with
    | true =>
      rw [hx] at hu
      simp only [cond_true] at hu
      have hxur : fp x = fp ur := of_decide_eq_true hx
      intro hc
      exact (List.pairwise_cons.mp h).1 u hu (hxur.trans hc.symm)
    | false =>
      rw [hx] at hu
      simp only [cond_false, List.mem_cons] at hu
      cases hu with
      | inl he => subst he; exact of_decide_eq_false hx
      | inr hm => exact ih (List.pairwise_cons.mp h).2 u hm
/-- Appending a fingerprint-fresh element preserves the invariant. -/
theorem nodupFp_append (l : UniqSet) (ur : UniqueRelease) (h : NodupFp l)
    (hfresh : ∀ u ∈ l, fp u ≠ fp ur) : NodupFp (l ++ [ur]) := by
  refine List.pairwise_append.mpr ⟨h, List.pairwise_singleton _ _, ?_⟩
  intro a ha b hb
  rw [List.mem_singleton] at hb
  subst hb
  exact hfresh a ha


/-- Every branch of the dedup step either leaves the tracking set unchanged,
appends a fresh fingerprint, or replaces the stored occupant of the probed
fingerprint; each preserves the at-most-one-per-fingerprint invariant. -/
theorem nodupFp_dedup_step (rel : Release) (args : Args) (uniq : UniqSet) (fs : FS)
    (moved_dir : PStr) (moved_duplicate : Bool) (duplicate_folder : Option PStr)
    (h : NodupFp uniq) :
    NodupFp (dedup_step rel args uniq fs moved_dir moved_duplicate duplicate_folder).1.uniq := by
  unfold dedup_step
  dsimp only
  split
  next => exact h
  next dupf =>
    split
    next hg =>
      split
      next existing heq =>
        split
        next hrank =>
          refine nodupFp_append _ _ ?_ ?_
          · exact List.Pairwise.sublist (List.eraseP_sublist _) h
          · exact fp_not_mem_eraseP _ uniq h
        next hrank => exact h
      next heq =>
        refine nodupFp_append _ _ h ?_
        intro u hu
        have := List.find?_eq_none.mp heq u hu
        exact of_decide_eq_false (Bool.eq_false_iff.mpr this)
    next hg => exact h

/-- The in-place rename step does nothing when the folder already has its
canonical name. -/
theorem rename_step_self (fs : FS) (p : PStr) : rename_step fs p p = (fs, p) := by
  simp [rename_step]

/-- The destination-move step does nothing when the release already sits at
its computed destination. -/
theorem dest_step_at_dest (rel : Release) (args : Args) (fs : FS) (p fixed df : PStr)
    (dup : Option PStr)
    (hviol : rel.num_violations = 0)
    (hdest : joinP (joinP (joinP df (if args.group_by_category then rel.category_value else []))
        (if args.group_by_artist && !rel.is_va then rel.artist_folder else []))
      (rel.get_folder_name (!args.full_codec_names) args.group_by_category) = p) :
    dest_step rel args fs p fixed (some df) dup = (fs, p, false) := by
  unfold dest_step
  dsimp only
  rw [hviol, hdest]
  simp

/-- The dedup step on a fingerprint not yet tracked only records the
fingerprint: the filesystem and the returned path are untouched. -/
theorem dedup_step_fresh (rel : Release) (args : Args) (uniq : UniqSet) (fs : FS) (p : PStr)
    (dup : Option PStr)
    (hviol : rel.num_violations = 0)
    (hfresh : ∀ u ∈ uniq, fp u ≠ fp (mk_unique rel p)) :
    (dedup_step rel args uniq fs p false dup).1.fs = fs ∧
    (dedup_step rel args uniq fs p false dup).2 = p := by
  unfold dedup_step
  dsimp only
  cases dup with
  | none => exact ⟨rfl, rfl⟩
  | some dupf =>
    have hfind : uniq.find? (fun u => decide (fp u = fp (mk_unique rel p))) = none := by
      refine List.find?_eq_none.mpr ?_
      intro u hu
      simpa using hfresh u hu
    rw [hfind]
    simp [hviol]


/-! ## Concrete scenario data

Two releases with the same fingerprint `(["X"], "2000", "T", "F")` and
canonical folder name "N", originally at "/s/a/o" and "/s/b/w"; destination
root "/d", duplicate root "/q".  Paths are deliberately short: all scenario
reasoning is by evaluation. -/

/-- A valid release with fingerprint `(["X"], "2000", "T", "F")`, canonical
folder name "N" and the given codec rank. -/
def relX (rank : Nat) : Release :=
  { can_validate_folder_name := true
    get_folder_name := fun _ _ => ['N']
    num_violations := 0
    is_va := false
    category_value := ['C']
    artist_folder := ['X']
    validate_release_artists := [['X']]
    validate_release_date := ['2', '0', '0', '0', '-', '1']
    validate_release_title := ['T']
    validate_codec := ['F']
    get_codec_rank := rank }

/-- Default flags: a plain `fix` run, no grouping, not a dry run. -/
def argsN : Args :=
  { dry_run := false, full_codec_names := false, group_by_artist := false
    group_by_category := false, move_invalid := none }

/-- Initial filesystem for the duplicate scenarios. -/
def fs0 : FS := [['/', 's'], ['/', 's', '/', 'a'], ['/', 's', '/', 'b'], ['/', 'd'], ['/', 'q'],
  ['/', 's', '/', 'a', '/', 'o'], ['/', 's', '/', 'b', '/', 'w']]

/-- The tracked occupant record for the scenario fingerprint at a rank and
path. -/
def ux (rank : Nat) (path : PStr) : UniqueRelease :=
  { artists := [['X']], year := ['2', '0', '0', '0'], title := ['T'], codec := ['F']
    rank := rank, path := path }

/-- Run the placement engine on two same-fingerprint releases in sequence
with destination root "/d" and duplicate root "/q" configured; returns the
final state and the two returned paths. -/
def c1place (rFirst rSecond : Nat) (dFirst dSecond : PStr) : St × PStr × PStr :=
  let a := move_rename_folder (relX rFirst) ⟨fs0, []⟩ dFirst (some ['/', 'd'])
    (some ['/', 'q']) argsN
  let b := move_rename_folder (relX rSecond) a.1 dSecond (some ['/', 'd'])
    (some ['/', 'q']) argsN
  (b.1, a.2, b.2)

/-- C1 counterexample: with destination and duplicate roots configured,
processing the rank-1 release first (from "/s/b/w") and the rank-2 release
second (from "/s/a/o") leaves the LOWER-ranked release at the canonical
destination "/d/N" (it is the tracked occupant, with rank 1) while the
higher-ranked release's placement call returns the duplicate-root path
"/q/N".  The claim's required outcome - the higher-ranked release at the
canonical destination in either arrival order - is therefore false: the
second arrival hits the occupied-destination branch of step 2, which
redirects to `move_duplicate` and skips the rank comparison entirely. -/
theorem c1_order_dependent_counterexample :
    (c1place 1 2 ['/', 's', '/', 'b', '/', 'w'] ['/', 's', '/', 'a', '/', 'o']).1.uniq
      = [ux 1 ['/', 'd', '/', 'N']] ∧
    (c1place 1 2 ['/', 's', '/', 'b', '/', 'w'] ['/', 's', '/', 'a', '/', 'o']).2.2
      = ['/', 'q', '/', 'N'] ∧
    (1 : Nat) < 2 := by
  refine ⟨by decide, by decide, by decide⟩

/-- C1 amended: when both a destination root and a duplicate root are
configured and the two same-fingerprint releases share a canonical folder
name, the FIRST-processed release occupies the canonical destination and the
second-processed release is placed under the duplicate root, for every pair
of codec ranks and in either arrival order: the final placement depends on
arrival order, not on rank. -/
theorem c1_first_arrival_wins (rA rB : Nat) :
    (c1place rA rB ['/', 's', '/', 'a', '/', 'o'] ['/', 's', '/', 'b', '/', 'w']).1.uniq
      = [ux rA ['/', 'd', '/', 'N']] ∧
    (c1place rA rB ['/', 's', '/', 'a', '/', 'o'] ['/', 's', '/', 'b', '/', 'w']).2.1
      = ['/', 'd', '/', 'N'] ∧
    (c1place rA rB ['/', 's', '/', 'a', '/', 'o'] ['/', 's', '/', 'b', '/', 'w']).2.2
      = ['/', 'q', '/', 'N'] ∧
    (c1place rB rA ['/', 's', '/', 'b', '/', 'w'] ['/', 's', '/', 'a', '/', 'o']).1.uniq
      = [ux rB ['/', 'd', '/', 'N']] ∧
    (c1place rB rA ['/', 's', '/', 'b', '/', 'w'] ['/', 's', '/', 'a', '/', 'o']).2.1
      = ['/', 'd', '/', 'N'] ∧
    (c1place rB rA ['/', 's', '/', 'b', '/', 'w'] ['/', 's', '/', 'a', '/', 'o']).2.2
      = ['/', 'q', '/', 'N'] := by
  refine ⟨?_, ?_, ?_, ?_, ?_, ?_⟩ <;>
    simp +decide [c1place, move_rename_folder, rename_step, dest_step, dedup_step, mk_unique,
      relX, argsN, fs0, ux, fp, firstDashField, joinP, splitP, rfindIdx, normP, pexists,
      renameFS, makedirsFS, rmdirFS, hasChild, cleanup, cleanupF, move_duplicate,
      move_duplicateF]


/-- Run the placement engine on two same-fingerprint releases with NO
destination root and duplicate root "/q": first the existing release (rank
`rOld`, from "/s/b/w"), then the new release (rank `rNew`, from "/s/a/o"),
so the second call exercises the rank comparison of the dedup step.
Returns the final state, the first returned path and the second returned
path. -/
def c3place (rNew rOld : Nat) : St × PStr × PStr :=
  let a := move_rename_folder (relX rOld) ⟨fs0, []⟩ ['/', 's', '/', 'b', '/', 'w'] none
    (some ['/', 'q']) argsN
  let b := move_rename_folder (relX rNew) a.1 ['/', 's', '/', 'a', '/', 'o'] none
    (some ['/', 'q']) argsN
  (b.1, a.2, b.2)

/-- C3 counterexample: when the new rank-2 release displaces the existing
rank-1 occupant of the same fingerprint, `move_rename_folder` returns
"/q/N" - the DEMOTED occupant's new location under the duplicate root -
while the new release itself rests at "/s/a/N" (the path the resolver
records for the tracked occupant, and a node of the final filesystem).  The
returned path is therefore not the release's own final resting path. -/
theorem c3_return_path_counterexample :
    (c3place 2 1).2.2 = ['/', 'q', '/', 'N'] ∧
    (c3place 2 1).1.uniq = [ux 2 ['/', 's', '/', 'a', '/', 'N']] ∧
    ['/', 's', '/', 'a', '/', 'N'] ∈ (c3place 2 1).1.fs ∧
    ['/', 'q', '/', 'N'] ≠ (['/', 's', '/', 'a', '/', 'N'] : PStr) := by
  refine ⟨by decide, by decide, by decide, by decide⟩

/-- C3 amended: for every rank pair with the new release ranked strictly
above the existing occupant, the demote-existing branch moves the existing
occupant's folder to the duplicate root, records the new release (at its own
canonical path "/s/a/N") as the tracked occupant, but RETURNS the demoted
occupant's new duplicate path "/q/N" rather than the new release's resting
path; the new release's folder remains on the filesystem and the old
occupant's folder "/s/b/N" is gone. -/
theorem c3_returns_demoted_path (rNew rOld : Nat) (h : rOld < rNew) :
    (c3place rNew rOld).2.2 = ['/', 'q', '/', 'N'] ∧
    (c3place rNew rOld).1.uniq = [ux rNew ['/', 's', '/', 'a', '/', 'N']] ∧
    ['/', 's', '/', 'a', '/', 'N'] ∈ (c3place rNew rOld).1.fs ∧
    ['/', 's', '/', 'b', '/', 'N'] ∉ (c3place rNew rOld).1.fs ∧
    (c3place rNew rOld).2.2 ≠ ['/', 's', '/', 'a', '/', 'N'] := by
  refine ⟨?_, ?_, ?_, ?_, ?_⟩ <;>
    simp +decide [c3place, move_rename_folder, rename_step, dest_step, dedup_step, mk_unique,
      relX, argsN, fs0, ux, fp, firstDashField, joinP, splitP, rfindIdx, normP, pexists,
      renameFS, makedirsFS, rmdirFS, hasChild, cleanup, cleanupF, move_duplicate,
      move_duplicateF, h]

/-- C3 witness: the amended theorem applied at ranks 2 over 1. -/
theorem c3_returns_demoted_path_witness :
    (0 : Nat) < 2 ∧ (c3place 2 1).2.2 = ['/', 'q', '/', 'N'] :=
  ⟨by decide, (c3_returns_demoted_path 2 1 (by decide)).1⟩

/-- C9 (confirmed): placing a release whose folder already carries its
canonical name and already sits at its computed destination is idempotent:
for any flags (not a dry run, validated folder name, no violations) and any
tracking set not yet containing the release's fingerprint (every run starts
with a fresh empty set), `move_rename_folder` leaves the filesystem
unchanged and returns the same path. -/
theorem c9_move_rename_idempotent (rel : Release) (args : Args) (fs : FS) (uniq : UniqSet)
    (curr_dir df : PStr) (dup : Option PStr)
    (hdry : args.dry_run = false)
    (hcv : rel.can_validate_folder_name = true)
    (hviol : rel.num_violations = 0)
    (hname : joinP (splitP curr_dir).1
      (rel.get_folder_name (!args.full_codec_names) args.group_by_category) = curr_dir)
    (hdest : joinP (joinP (joinP df (if args.group_by_category then rel.category_value else []))
        (if args.group_by_artist && !rel.is_va then rel.artist_folder else []))
      (rel.get_folder_name (!args.full_codec_names) args.group_by_category) = curr_dir)
    (hfresh : ∀ u ∈ uniq, fp u ≠ fp (mk_unique rel curr_dir)) :
    (move_rename_folder rel ⟨fs, uniq⟩ curr_dir (some df) dup args).1.fs = fs ∧
    (move_rename_folder rel ⟨fs, uniq⟩ curr_dir (some df) dup args).2 = curr_dir := by
  unfold move_rename_folder
  rw [hdry, hcv]
  dsimp only
  rw [hname, rename_step_self]
  dsimp only
  rw [dest_step_at_dest rel args fs curr_dir curr_dir df dup hviol hdest]
  exact dedup_step_fresh rel args uniq fs curr_dir dup hviol hfresh

/-- C9 witness: a release named "N" already at "/d/N" under destination root
"/d", processed with a fresh tracking set, moves nowhere and returns its own
path. -/
theorem c9_move_rename_idempotent_witness :
    (move_rename_folder (relX 2) ⟨[['/', 'd'], ['/', 'd', '/', 'N']], []⟩ ['/', 'd', '/', 'N']
      (some ['/', 'd']) (some ['/', 'q']) argsN).1.fs = [['/', 'd'], ['/', 'd', '/', 'N']] ∧
    (move_rename_folder (relX 2) ⟨[['/', 'd'], ['/', 'd', '/', 'N']], []⟩ ['/', 'd', '/', 'N']
      (some ['/', 'd']) (some ['/', 'q']) argsN).2 = ['/', 'd', '/', 'N'] :=
  c9_move_rename_idempotent (relX 2) argsN [['/', 'd'], ['/', 'd', '/', 'N']] []
    ['/', 'd', '/', 'N'] ['/', 'd'] (some ['/', 'q'])
    rfl rfl rfl (by decide) (by decide) (by intro u hu; simp at hu)

/-- C10 (confirmed): one placement step preserves the duplicate-resolver
invariant that the tracking set holds at most one occupant per fingerprint
value: every resolution either records a fresh fingerprint or replaces the
existing occupant of that fingerprint (`UniqueRelease` equality is the
four-tuple only; rank and path are payload). -/
theorem c10_resolver_fingerprint_invariant (rel : Release) (args : Args) (st : St)
    (curr_dir : PStr) (dest_folder duplicate_folder : Option PStr)
    (h : NodupFp st.uniq) :
    NodupFp (move_rename_folder rel st curr_dir dest_folder duplicate_folder args).1.uniq := by
  unfold move_rename_folder
  split
  · exact h
  · exact nodupFp_dedup_step _ _ _ _ _ _ _ h

/-- C10 witness: the invariant theorem applied to a placement starting from
the empty tracking set of a fresh fix run. -/
theorem c10_resolver_fingerprint_invariant_witness :
    NodupFp (move_rename_folder (relX 2) ⟨fs0, []⟩ ['/', 's', '/', 'a', '/', 'o']
      (some ['/', 'd']) (some ['/', 'q']) argsN).1.uniq :=
  c10_resolver_fingerprint_invariant (relX 2) argsN ⟨fs0, []⟩ ['/', 's', '/', 'a', '/', 'o']
    (some ['/', 'd']) (some ['/', 'q']) List.Pairwise.nil


deriving instance DecidableEq for Except

/-! ## C2: dry run -/

/-- A release whose fixed form still carries one violation (of kind "t"). -/
def relInvalid : Release :=
  { can_validate_folder_name := true
    get_folder_name := fun _ _ => ['N']
    num_violations := 1
    is_va := false
    category_value := ['C']
    artist_folder := ['X']
    validate_release_artists := [['X']]
    validate_release_date := ['2', '0', '0', '0']
    validate_release_title := ['T']
    validate_codec := ['F']
    get_codec_rank := 1 }

/-- Collaborator results: lockable, no tracks, one validator violation of
kind "t", nothing unreadable. -/
def infoInvalid : PStr → RelInfo := fun _ =>
  { lockable := true, rel := relInvalid, tracks := []
    validator_violations := [['t']], unreadable := [] }

/-- Flags `--dry-run` plus `--move-invalid t`. -/
def argsDry : Args :=
  { dry_run := true, full_codec_names := false, group_by_artist := false
    group_by_category := false, move_invalid := some ['t'] }

/-- Filesystem before the dry run: the release at "/s/r", invalid root "/i". -/
def fsC2 : FS := [['/', 's'], ['/', 's', '/', 'r'], ['/', 'i']]

/-- C2: a fix run with `--dry-run` set still renames the invalid release
folder "/s/r" into the configured invalid root, leaving the filesystem
mutated ("/s/r" is gone, "/i/r" exists): `move_invalid_folder` (and likewise
`enforce_max_path`) is called without any dry-run guard in `fix_releases`. -/
theorem c2_dry_run_still_moves :
    fix_releases infoInvalid argsDry none (some ['/', 'i']) none [['/', 's', '/', 'r']]
        ⟨fsC2, []⟩
      = Except.ok (⟨[['/', 's'], ['/', 'i', '/', 'r'], ['/', 'i']], []⟩, [['/', 'i', '/', 'r']]) ∧
    ['/', 's', '/', 'r'] ∉ ([['/', 's'], ['/', 'i', '/', 'r'], ['/', 'i']] : FS) := by
  refine ⟨by decide, by decide⟩

/-! ## C6: path-too-long aborts the run -/

/-- A 251-character directory (parent length over the 245 threshold). -/
def longdir : PStr := '/' :: List.replicate 250 'a'

/-- Filesystem holding the overlong release and a second normal release. -/
def fsC6 : FS := [longdir, longdir ++ '/' :: str "t.mp3", ['/', 's'], ['/', 's', '/', 'r']]

/-- C6 counterexample: the release at `longdir` contains an entry whose full
path exceeds 255 characters while the parent alone is 251 >= 245 characters;
`enforce_max_path` raises and nothing catches it, so the whole fix run
terminates with the error instead of skipping to the release at "/s/r". -/
theorem c6_abort_counterexample :
    fix_releases infoInvalid argsN none none none [longdir, ['/', 's', '/', 'r']] ⟨fsC6, []⟩
      = Except.error longdir := by
  decide

/-- C6 amended: a path-too-long condition beyond truncation capacity raises
a `ValueError` that propagates out of `fix_releases` uncaught: whatever
releases follow the failing one, the run ends with the error and none of
them is processed. -/
theorem c6_path_too_long_aborts (rest : List PStr) :
    fix_releases infoInvalid argsN none none none (longdir :: rest) ⟨fsC6, []⟩
      = Except.error longdir := by
  have h1 : fix_one infoInvalid argsN none none none (⟨fsC6, []⟩, []) longdir
      = Except.error longdir := by decide
  simp only [fix_releases, List.foldlM_cons, h1]
  rfl

/-! ## C4: validate-only consolidation -/

/-- Two sibling disc directories of one release. -/
def discDirs : List PStr := [str "/r/Artist - Album Disc 1", str "/r/Artist - Album Disc 2"]

/-- Filesystem holding the two disc directories. -/
def fsC4 : FS := [str "/r", str "/r/Artist - Album Disc 1", str "/r/Artist - Album Disc 2"]

/-- C4 counterexample: with `apply` false the consolidator indeed performs
no filesystem operation, but it does NOT remove the matched disc directories
from the working set: the source mutates no list and returns `None`, and
`validate_releases` (whose consolidation call is commented out) still
processes both matched disc directories - here "/r/Artist - Album Disc 1"
is a matched disc entry and is still validated. -/
theorem c4_not_removed_counterexample :
    assemble_discs discDirs false fsC4 = fsC4 ∧
    validate_releases discDirs = discDirs ∧
    str "/r/Artist - Album Disc 1" ∈ validate_releases discDirs ∧
    (disc_entry (str "/r/Artist - Album Disc 1")).isSome = true := by
  refine ⟨rfl, rfl, by decide, by decide⟩

/-- C4 amended: calling the disc consolidator with `apply` false touches
neither the filesystem nor the working list: every directory, matched disc
or not, remains and is validated by the subsequent per-release loop. -/
theorem c4_validate_mode_no_op (release_dirs : List PStr) (fs : FS) :
    assemble_discs release_dirs false fs = fs ∧
    validate_releases release_dirs = release_dirs :=
  ⟨rfl, rfl⟩


/-! ## C5: the path length enforcer -/

/-- An entry name with a 254-character extension (one leading stem
character, then a dot and 253 further characters). -/
def nameC5 : PStr := 'a' :: '.' :: List.replicate 253 'b'

/-- Filesystem with the pathological entry under the short directory "/x". -/
def fsC5 : FS := [str "/x", str "/x/" ++ nameC5]

/-- C5 counterexample: the entry "/x/a.bbb...b" (parent "/x" of length
2 < 245, full path 258 > 255, extension of length 254) IS renamed by the
enforcer, but to a path of length 259 - the negative Python slice
`prefix[:255-len(ext)-2]` eats into the stem and the result still exceeds
255 characters, falsifying "renames the entry to a name of total length at
most 255". -/
theorem c5_long_extension_counterexample :
    (str "/x").length < 245 ∧
    255 < (str "/x" ++ '/' :: nameC5).length ∧
    enforce_max_path fsC5 (str "/x")
      = Except.ok [str "/x", str "/x/.." ++ '.' :: List.replicate 253 'b'] ∧
    255 < (str "/x/.." ++ '.' :: List.replicate 253 'b').length := by
  refine ⟨by decide, by decide, by decide, by decide⟩

/-- C5 amended: for one `os.scandir` entry `name` of directory `path`
(full path `path ++ "/" ++ name`):
(a) if the full path exceeds 255 characters and the parent is at least 245
characters, the enforcer raises the path-too-long error;
(b) if the full path exceeds 255 characters, the parent is under 245
characters AND the extension is at most 253 characters, the truncated
target (the stem sliced to `255 - len(ext) - 2`, a two-character ellipsis
marker, then the original extension) has total length at most 255, and the
entry is renamed to it exactly when no entry occupies it (otherwise the
overlong name silently stays);
(c) entries whose full path is at most 255 characters are left untouched.
The 253-character bound on the extension is forced by the counterexample:
beyond it the Python slice goes negative and the target exceeds 255. -/
theorem c5_truncation_spec (fs : FS) (path name : PStr) :
    (255 < (path ++ '/' :: name).length → 245 ≤ (splitP (path ++ '/' :: name)).1.length →
      enforce_entry fs path name = Except.error (splitP (path ++ '/' :: name)).1) ∧
    (255 < (path ++ '/' :: name).length → (splitP (path ++ '/' :: name)).1.length < 245 →
      (splitextP (path ++ '/' :: name)).2.length ≤ 253 →
      (pyTake (splitextP (path ++ '/' :: name)).1
          (255 - ((splitextP (path ++ '/' :: name)).2.length : Int) - 2)
        ++ str ".." ++ (splitextP (path ++ '/' :: name)).2).length ≤ 255 ∧
      enforce_entry fs path name = Except.ok
        (if pexists fs (pyTake (splitextP (path ++ '/' :: name)).1
              (255 - ((splitextP (path ++ '/' :: name)).2.length : Int) - 2)
            ++ str ".." ++ (splitextP (path ++ '/' :: name)).2) = true then fs
         else renameFS fs (path ++ '/' :: name)
          (pyTake (splitextP (path ++ '/' :: name)).1
              (255 - ((splitextP (path ++ '/' :: name)).2.length : Int) - 2)
            ++ str ".." ++ (splitextP (path ++ '/' :: name)).2))) ∧
    ((path ++ '/' :: name).length ≤ 255 → enforce_entry fs path name = Except.ok fs) := by
  refine ⟨?_, ?_, ?_⟩
  · intro h1 h2
    unfold enforce_entry
    dsimp only
    rw [if_pos h1, if_pos h2]
  · intro h1 h2 h3
    have hdot : (str "..").length = 2 := rfl
    have hi : (0 : Int) ≤ 255 - ((splitextP (path ++ '/' :: name)).2.length : Int) - 2 := by
      omega
    constructor
    · rw [pyTake, if_pos hi]
      simp only [List.length_append, List.length_take, hdot]
      omega
    · unfold enforce_entry
      dsimp only
      rw [if_pos h1, if_neg (by omega)]
      by_cases hex : pexists fs (pyTake (splitextP (path ++ '/' :: name)).1
          (255 - ((splitextP (path ++ '/' :: name)).2.length : Int) - 2)
        ++ str ".." ++ (splitextP (path ++ '/' :: name)).2) = true
      · rw [hex]
        simp
      · rw [Bool.eq_false_iff.mpr hex]
        simp
  · intro h1
    unfold enforce_entry
    dsimp only
    rw [if_neg (by omega)]

/-- The 200-character parent directory of the spec's example. -/
def pathC5 : PStr := '/' :: List.replicate 199 'p'

/-- The 59-character entry name of the spec's example ("nn...n.mp3"),
yielding a 260-character full path. -/
def nameC5ok : PStr := List.replicate 55 'n' ++ str ".mp3"

/-- C5 witness: the spec's example - full path of length 260, parent of
length 200, extension ".mp3" - satisfies the amended theorem's truncation
case: the target has length at most 255. -/
theorem c5_truncation_spec_witness :
    255 < (pathC5 ++ '/' :: nameC5ok).length ∧
    (pyTake (splitextP (pathC5 ++ '/' :: nameC5ok)).1
        (255 - ((splitextP (pathC5 ++ '/' :: nameC5ok)).2.length : Int) - 2)
      ++ str ".." ++ (splitextP (pathC5 ++ '/' :: nameC5ok)).2).length ≤ 255 :=
  ⟨by decide,
    ((c5_truncation_spec [] pathC5 nameC5ok).2.1 (by decide) (by decide) (by decide)).1⟩

/-! ## C7 and C8: disc grouping -/

/-- C7 (confirmed): disc-folder matches are grouped under the lowercase form
of their computed container and a group is materialized only when at least
two distinct matched folder names share it: every retained group has at
least two disc names; the sibling pair "Artist - Album Disc 1"/"Disc 2"
forms the single group with container "/r/Artist - Album"; a lone disc is
never grouped; containers differing only in case share one group; and a
duplicated identical name does not count as two discs. -/
theorem c7_disc_grouping :
    (∀ dirs : List PStr, ∀ g ∈ disc_groups dirs, 2 ≤ g.2.length) ∧
    disc_groups [str "/r/Artist - Album Disc 1", str "/r/Artist - Album Disc 2"]
      = [(str "/r/Artist - Album", [str "Artist - Album Disc 1", str "Artist - Album Disc 2"])] ∧
    disc_groups [str "/r/Artist - Album Disc 1"] = [] ∧
    disc_groups [str "/r/ARTIST - ALBUM Disc 1", str "/r/Artist - Album Disc 2"]
      = [(str "/r/ARTIST - ALBUM", [str "ARTIST - ALBUM Disc 1", str "Artist - Album Disc 2"])] ∧
    disc_groups [str "/r/Artist - Album Disc 1", str "/r/Artist - Album Disc 1"] = [] := by
  refine ⟨?_, by decide, by decide, by decide, by decide⟩
  intro dirs g hg
  simp only [disc_groups] at hg
  rcases List.mem_map.mp hg with ⟨e, he, hge⟩
  rcases List.mem_filter.mp he with ⟨-, h2⟩
  simp only [decide_eq_true_eq] at h2
  subst hge
  exact h2

/-- C7 witness: the first conjunct applied to the sibling-pair input and its
computed group. -/
theorem c7_disc_grouping_witness :
    2 ≤ ((str "/r/Artist - Album",
      [str "Artist - Album Disc 1", str "Artist - Album Disc 2"]) : PStr × List PStr).2.length :=
  c7_disc_grouping.1 [str "/r/Artist - Album Disc 1", str "/r/Artist - Album Disc 2"]
    (str "/r/Artist - Album", [str "Artist - Album Disc 1", str "Artist - Album Disc 2"])
    (by decide)

/-- C8 counterexample: in the folder name "cd acd2" the leftmost regex match
is "cd2", starting at index 4, immediately preceded by the alphanumeric
character at index 3 - yet the folder IS accepted as a disc entry, because
the source checks the character before `folder.find("cd")`, i.e. before the
FIRST occurrence of the matched variant text, which here is index 0. -/
theorem c8_preceding_alnum_counterexample :
    findMatchStart (str "cd acd2") = some 4 ∧
    (str "cd acd2")[3]?.elim false Char.isAlphanum = true ∧
    (disc_entry (str "/r/cd acd2")).isSome = true := by
  refine ⟨by decide, by decide, by decide⟩

/-- C8 amended: the rejection check tests the character immediately before
the FIRST occurrence of the matched variant text in the folder name
(`folder.find`), not the character before the match itself.  This rejects
"Abacadisc2" (whose match at index 5 coincides with the first occurrence of
"disc"), but accepts "cd acd2" although its match at index 4 follows the
alphanumeric character at index 3, because "cd" first occurs at index 0. -/
theorem c8_first_occurrence_rejection :
    (findMatch (str "Abacadisc2")).isSome = true ∧
    disc_entry (str "/r/Abacadisc2") = none ∧
    strFindIdx (str "Abacadisc2") (str "disc") = some 5 ∧
    strFindIdx (str "cd acd2") (str "cd") = some 0 ∧
    findMatchStart (str "cd acd2") = some 4 ∧
    (disc_entry (str "/r/cd acd2")).isSome = true := by
  refine ⟨by decide, by decide, by decide, by decide, by decide, by decide⟩

end Centrifuge
